import Mathlib

/-!
# Verification of the `tagged_dispatch` tagged-pointer value representation

A shallow embedding of the `tagged_dispatch` crate (file `src/lib.rs`) and of the
code that its procedural macro (file `tagged_dispatch_macros/src/lib.rs`) generates
for a declared variant set, together with proofs of the specified properties.

Modelling conventions:
* `usize` values are `Nat`s; Rust's 64-bit wrap-around is written `% 2 ^ 64`
  exactly where the machine arithmetic can overflow (`<<` truncates to 64 bits).
* A `u8` argument is a `Nat`; the `as u8` cast at a call site is written `% 256`.
* `debug_assert!` failures (panics) are modelled by `Option`: the debug-build
  version of a function returns `none` where the real one panics; the
  release-build version (`...Raw`) has the asserts compiled out.
* The heap is a map from addresses to stored payloads plus a bump counter that
  hands out fresh addresses; `Box::new`/`Box::into_raw` is `Heap.alloc` and
  `Box::from_raw`/`drop` is `Heap.free`. All variant payloads live in one
  payload universe `α`; the `as *const T` reinterpretation at the matching
  concrete type is the identity on that universe.
-/

namespace TaggedDispatch

/-- `TaggedPtr::TAG_SHIFT` -/
def TAG_SHIFT : Nat := 57

/-- `TaggedPtr::TAG_MASK = 0x7F << TAG_SHIFT` -/
def TAG_MASK : Nat := 0x7F <<< TAG_SHIFT

/-- `TaggedPtr::PTR_MASK = !TAG_MASK` (bitwise not on a 64-bit `usize`). -/
def PTR_MASK : Nat := (2 ^ 64 - 1) ^^^ TAG_MASK

/-- `TaggedPtr::MAX_VARIANTS` -/
def MAX_VARIANTS : Nat := 128

/-- `TaggedPtr<T>` from `src/lib.rs`: a single machine word.  The Rust field is
named `ptr`; it is called `word` here because `ptr()` is also the name of the
untagging accessor method. -/
structure TaggedPtr where
  word : Nat
deriving DecidableEq

/-- `TaggedPtr::new` with the two `debug_assert!`s compiled out (release build):
`ptr as usize | ((tag as usize) << TAG_SHIFT)`.  The `tag` argument is a `u8`
(callers pass a value `< 256`); the shift of a 64-bit word truncates. -/
def TaggedPtr.newRaw (addr tag : Nat) : TaggedPtr :=
  ⟨addr ||| ((tag <<< TAG_SHIFT) % 2 ^ 64)⟩

/-- `TaggedPtr::new` as compiled in a debug build: `debug_assert!(tag < 128)`
then `debug_assert_eq!(addr & TAG_MASK, 0)`, a panic being `none`. -/
def TaggedPtr.new (addr tag : Nat) : Option TaggedPtr :=
  if tag < MAX_VARIANTS then
    if addr &&& TAG_MASK = 0 then some (TaggedPtr.newRaw addr tag) else none
  else none

/-- `TaggedPtr::tag`: `((self.ptr & TAG_MASK) >> TAG_SHIFT) as u8`. -/
def TaggedPtr.tag (p : TaggedPtr) : Nat := (p.word &&& TAG_MASK) >>> TAG_SHIFT

/-- `TaggedPtr::ptr`: `(self.ptr & PTR_MASK) as *mut T` — the untagged address. -/
def TaggedPtr.ptr (p : TaggedPtr) : Nat := p.word &&& PTR_MASK

/-- Modelled from the spec: `TaggedPtr::untagged_ptr`, called by the generated
`Drop` code, is absent from `src/lib.rs`; per the spec's decoding
(`address = word & ~(0x7F << 57)`) it is the same untagged-address read as
`ptr()`. -/
def TaggedPtr.untagged_ptr (p : TaggedPtr) : Nat := p.word &&& PTR_MASK

/-- `TaggedPtr::is_null`: `self.ptr() as usize == 0` (the tag is ignored). -/
def TaggedPtr.is_null (p : TaggedPtr) : Bool := p.ptr == 0

/-! ## The heap and the owned lifecycle generated by `generate_owned_impl` -/

/-- The heap behind `Box`: a bump counter handing out fresh addresses and a map
from addresses to live payloads. -/
structure Heap (α : Type) where
  next : Nat
  mem : Nat → Option α

/-- `Box::into_raw(Box::new(value))`: a fresh address now holding `value`. -/
def Heap.alloc {α : Type} (h : Heap α) (v : α) : Nat × Heap α :=
  (h.next, ⟨h.next + 1, fun a => if a = h.next then some v else h.mem a⟩)

/-- `drop(Box::from_raw(ptr))`: the allocation at `a` ceases to exist. -/
def Heap.free {α : Type} (h : Heap α) (a : Nat) : Heap α :=
  ⟨h.next, fun b => if b = a then none else h.mem b⟩

/-- The generated per-variant constructor for the owned type (variant index
`i`): `let boxed = Box::new(value); let ptr = Box::into_raw(boxed) as *mut ();
Self(TaggedPtr::new(ptr, #tag))` where the macro writes the literal
`#tag = i as u8`. -/
def constructOwned {α : Type} (h : Heap α) (i : Nat) (x : α) :
    TaggedPtr × Heap α :=
  let p := h.alloc x
  (TaggedPtr.newRaw p.1 (i % 256), p.2)

/-- The generated `impl From<#ty>` for the owned type (variant index `i`):
`let boxed = Box::new(value); let ptr = Box::into_raw(boxed) as *mut ();
Self(TaggedPtr::new(ptr, #tag))`. -/
def fromOwned {α : Type} (h : Heap α) (i : Nat) (x : α) :
    TaggedPtr × Heap α :=
  let boxed := h.alloc x
  (TaggedPtr.newRaw boxed.1 (i % 256), boxed.2)

/-- The generated `tag_type`: `unsafe { transmute(self.0.tag()) }` into the
`#[repr(u8)]` companion enum whose variants sit in declaration order, so the
result identifies the variant with declaration index `tag`. -/
def tag_type (p : TaggedPtr) : Nat := p.tag

/-- One generated forwarding method (`generate_dispatch_method`): match on
`self.tag_type()` over the declared variants; in the arm for variant `t`,
`let ptr = &*(self.0.ptr() as *const T_t); ptr.method(args)`.  `impls` lists
each declared variant's implementation in declaration order; a tag outside the
declared set (invalid `transmute`) or a dangling address is undefined
behavior, modelled as `none`. -/
def dispatchCall {α σ ρ : Type} (impls : List (α → σ → ρ)) (h : Heap α)
    (v : TaggedPtr) (args : σ) : Option ρ :=
  match impls[tag_type v]?, h.mem v.ptr with
  | some f, some x => some (f x args)
  | _, _ => none

/-- A capability (trait) method as `process_trait` sees it: whether it carries
`#[no_dispatch]`, plus each declared variant's implementation of it. -/
structure TraitMethod (α σ ρ : Type) where
  noDispatch : Bool
  impls : List (α → σ → ρ)

/-- `process_trait`: the methods that get a generated forwarding method are
exactly those without the `#[no_dispatch]` attribute. -/
def dispatchForwarders {α σ ρ : Type} (ms : List (TraitMethod α σ ρ)) :
    List (TraitMethod α σ ρ) :=
  ms.filter (fun m => !m.noDispatch)

/-- The generated `Clone` for the owned type: match on `self.0.tag()`; in the
arm for variant `t`, `let ptr = self.0.ptr() as *const T_t; let cloned =
(*ptr).clone(); Self::t_constructor(cloned)`.  `clones` lists each variant's
concrete `Clone::clone` in declaration order; the wildcard arm
(`unreachable!`) and a dangling read are `none`. -/
def cloneOwned {α : Type} (clones : List (α → α)) (h : Heap α)
    (v : TaggedPtr) : Option (TaggedPtr × Heap α) :=
  match clones[v.tag]?, h.mem v.ptr with
  | some cl, some x => some (constructOwned h v.tag (cl x))
  | _, _ => none

/-- The generated `Drop` for an owned type with `n` declared variants:
`if self.0.is_null() { return; }` then match on the tag; every declared arm
does `let ptr = self.0.untagged_ptr() as *mut T_t; drop(Box::from_raw(ptr))`
(the pointee's destructor runs and its allocation is deallocated once); the
wildcard arm is `unreachable!("Invalid tag")`, modelled as `none`.  The
returned list records each deallocated address in order. -/
def dropOwned {α : Type} (n : Nat) (h : Heap α) (v : TaggedPtr) :
    Option (Heap α × List Nat) :=
  if v.is_null then some (h, [])
  else if v.tag < n then some (h.free v.untagged_ptr, [v.untagged_ptr])
  else none

/-- `generate_owned_impl` emits one constructor per declared variant with the
tag literal `i as u8`, for every variant count `n` — no bound on `n` is
checked anywhere in the macro. -/
def constructorTags (n : Nat) : List Nat :=
  (List.range n).map (fun i => i % 256)

/-! ## Derived pointer-identity comparisons (spec-modelled)

The repository's tests exercise generated `Debug`/`PartialEq`/`Ord` impls and
`no_debug`/`no_cmp`/`no_ord`/`no_traits` opt-out flags, but the macro source
under `src/` neither parses those flags nor emits those impls; that generation
is code of this repository missing from `src/`.  Per the spec, the derived
behavior "operates on `(tag, address)` — pointer identity": on the
`#[repr(transparent)]` wrapper over `TaggedPtr` (itself transparent over one
`usize`), the natural derived comparisons compare the single word. -/

/-- Modelled from the spec: the derived pointer-identity equality on the owned
wrapper — equality of the underlying word. -/
def derivedEqOwned (v w : TaggedPtr) : Prop := v.word = w.word

/-- Modelled from the spec: the derived strict order on the owned wrapper —
the `usize` order of the underlying words. -/
def derivedLtOwned (v w : TaggedPtr) : Prop := v.word < w.word

/-- Modelled from the spec: the derived non-strict order on the owned
wrapper. -/
def derivedLeOwned (v w : TaggedPtr) : Prop := v.word ≤ w.word

/-! ## The arena builder generated by `generate_arena_impl`

The builder's `allocator` field is the generated `#ArenaType` enum: a `Typed`
variant holding one `typed_arena::Arena` per declared variant, or a `Bumpalo`
variant holding a `bumpalo::Bump` pointer plus an `owned` flag
(`with_bumpalo()` sets it, `with_external_bumpalo(&arena)` clears it).  The
two bumpalo cases are split into two strategies here so that `owned` is part
of the strategy.  The backing arenas' address space is a `Heap`;
`allocatedBytes`/`chunkCapacity` model bumpalo's `allocated_bytes()` and
`chunk_capacity()`; `epoch` numbers the generations of backing storage, so
that invalidation of previously produced values is expressible: a value is
invalidated once its epoch differs from the builder's. -/

/-- Which arm of the generated allocator enum the builder holds. -/
inductive Strategy where
  | typed
  | bumpaloOwned
  | bumpaloExternal
deriving DecidableEq

/-- The panic raised by `reset` on a borrowed region:
`panic!("Cannot reset builder using external arena")`. -/
inductive ResetError where
  | cannotResetExternalArena
deriving DecidableEq

/-- `tagged_dispatch::ArenaStats`. -/
structure ArenaStats where
  allocated_bytes : Nat
  chunk_capacity : Nat
deriving DecidableEq

/-- The generated `#enum_nameArenaBuilder`. -/
structure Builder (α : Type) where
  strat : Strategy
  region : Heap α
  allocatedBytes : Nat
  chunkCapacity : Nat
  epoch : Nat

/-- The generated arena value type: a `TaggedPtr` plus (as the model of its
lifetime tie to the region) the epoch of the backing storage it was
allocated from. -/
structure ArenaValue where
  repr : TaggedPtr
  epoch : Nat

/-- A previously produced arena value is invalidated once the builder's
backing storage has moved to a newer generation. -/
def ArenaValue.invalidatedBy {α : Type} (v : ArenaValue) (b : Builder α) :
    Prop :=
  v.epoch ≠ b.epoch

/-- `generate_reset_impl`: match on the allocator.  `Typed { .. }` replaces
the arenas wholesale with fresh empty ones (typed_arena cannot reset in
place); `Bumpalo { owned: true, .. }` calls `bumpalo::Bump::reset`, which
discards all allocations but retains the already-acquired backing chunk
(modelled: `allocatedBytes` drops to 0, `chunkCapacity` is kept);
`Bumpalo { owned: false, .. }` panics with
"Cannot reset builder using external arena".  Either successful arm
invalidates everything previously allocated: the epoch advances. -/
def Builder.reset {α : Type} (b : Builder α) :
    Except ResetError (Builder α) :=
  match b.strat with
  | Strategy.typed =>
      Except.ok { b with
        region := ⟨b.region.next, fun _ => none⟩
        allocatedBytes := 0
        chunkCapacity := 0
        epoch := b.epoch + 1 }
  | Strategy.bumpaloOwned =>
      Except.ok { b with
        region := ⟨b.region.next, fun _ => none⟩
        allocatedBytes := 0
        epoch := b.epoch + 1 }
  | Strategy.bumpaloExternal => Except.error ResetError.cannotResetExternalArena

/-- The generated `clear`: its entire body is `self.reset();` (source comment:
"For now, same as reset") — for every strategy. -/
def Builder.clear {α : Type} (b : Builder α) : Except ResetError (Builder α) :=
  b.reset

/-- `generate_stats_impl`: `Typed { .. }` returns `Default::default()`
(typed_arena exposes no statistics); `Bumpalo { .. }` reads
`allocated_bytes()` and `chunk_capacity()` from the arena. -/
def Builder.stats {α : Type} (b : Builder α) : ArenaStats :=
  match b.strat with
  | Strategy.typed => ⟨0, 0⟩
  | _ => ⟨b.allocatedBytes, b.chunkCapacity⟩

/-- One generated arena builder method (variant index `i`): allocate the
value from the bound arena, then
`#enum_name(TaggedPtr::new(ptr, #tag), PhantomData)` with the tag literal
`i as u8`; the produced value is tied to the current backing storage. -/
def Builder.build {α : Type} (b : Builder α) (i : Nat) (x : α) :
    ArenaValue × Builder α :=
  let p := b.region.alloc x
  (⟨TaggedPtr.newRaw p.1 (i % 256), b.epoch⟩,
    { b with region := p.2, allocatedBytes := b.allocatedBytes + 1 })

/-! ## Arithmetic facts about the bit-level encoding -/

theorem PTR_MASK_eq : PTR_MASK = 2 ^ 57 - 1 := by decide

theorem TAG_MASK_eq : TAG_MASK = 0x7F * 2 ^ 57 := by decide

/-- Masking with `PTR_MASK` is reduction mod `2 ^ 57`. -/
theorem and_PTR_MASK (w : Nat) : w &&& PTR_MASK = w % 2 ^ 57 := by
  rw [PTR_MASK_eq]
  apply Nat.eq_of_testBit_eq
  intro i
  rw [Nat.testBit_land, Nat.testBit_mod_two_pow, Nat.testBit_two_pow_sub_one]
  exact Bool.and_comm _ _

/-- The tag field of any word is the high 7 bits. -/
theorem and_TAG_MASK_shift (w : Nat) :
    (w &&& TAG_MASK) >>> TAG_SHIFT = w / 2 ^ 57 % 128 := by
  have h7f : (0x7F : Nat) = 2 ^ 7 - 1 := by norm_num
  apply Nat.eq_of_testBit_eq
  intro i
  rw [Nat.testBit_shiftRight, Nat.testBit_land]
  rw [show (TAG_SHIFT + i) = i + 57 from by simp [TAG_SHIFT]; omega]
  rw [TAG_MASK, TAG_SHIFT, Nat.testBit_shiftLeft, h7f,
    Nat.testBit_two_pow_sub_one]
  rw [show (128 : Nat) = 2 ^ 7 from by norm_num, Nat.testBit_mod_two_pow,
    ← Nat.shiftRight_eq_div_pow, Nat.testBit_shiftRight]
  rw [show (57 + i) = i + 57 from by omega]
  by_cases hi : i < 7
  · simp [hi, Nat.add_sub_cancel, show 57 ≤ i + 57 from by omega, ge_iff_le]
  · simp [hi, show 57 ≤ i + 57 from by omega, ge_iff_le, Nat.add_sub_cancel]

/-- `lor` of an address below `2 ^ 57` with a multiple of `2 ^ 57` is addition. -/
theorem lor_high_add (a s : Nat) (ha : a < 2 ^ 57) :
    a ||| s * 2 ^ 57 = s * 2 ^ 57 + a := by
  apply Nat.eq_of_testBit_eq
  intro i
  rw [Nat.testBit_lor]
  rw [show s * 2 ^ 57 + a = 2 ^ 57 * s + a from by ring_nf]
  rw [Nat.testBit_mul_pow_two_add s ha i]
  rw [show s * 2 ^ 57 = s <<< 57 from by rw [Nat.shiftLeft_eq],
    Nat.testBit_shiftLeft]
  by_cases hi : i < 57
  · simp [hi, show ¬ (57 ≤ i) from by omega, ge_iff_le]
  · have hfa : a.testBit i = false := by
      apply Nat.testBit_lt_two_pow
      calc a < 2 ^ 57 := ha
        _ ≤ 2 ^ i := Nat.pow_le_pow_right (by norm_num) (by omega)
    simp [hi, show 57 ≤ i from by omega, ge_iff_le, hfa]

/-- The word built by `TaggedPtr::new` in normal form: for an address with the
top 7 bits clear and a `u8` tag, the word is `(tag mod 128) * 2 ^ 57 + addr`. -/
theorem newRaw_word (addr tag : Nat) (ha : addr < 2 ^ 57) (ht : tag < 256) :
    (TaggedPtr.newRaw addr tag).word = tag % 128 * 2 ^ 57 + addr := by
  show addr ||| ((tag <<< TAG_SHIFT) % 2 ^ 64) = _
  rw [TAG_SHIFT, Nat.shiftLeft_eq,
    show (2 ^ 64 : Nat) = 128 * 2 ^ 57 from by norm_num,
    Nat.mul_mod_mul_right]
  exact lor_high_add addr (tag % 128) ha

/-- Decoding after encoding: the tag and address reads of `newRaw`. -/
theorem newRaw_tag_ptr (addr tag : Nat) (ha : addr < 2 ^ 57) (ht : tag < 256) :
    (TaggedPtr.newRaw addr tag).tag = tag % 128 ∧
    (TaggedPtr.newRaw addr tag).ptr = addr := by
  have hw := newRaw_word addr tag ha ht
  constructor
  · rw [TaggedPtr.tag, hw, and_TAG_MASK_shift]
    have hdiv : (tag % 128 * 2 ^ 57 + addr) / 2 ^ 57 = tag % 128 := by
      rw [Nat.add_comm,
        Nat.add_mul_div_right _ _ (show (0 : Nat) < 2 ^ 57 from by norm_num),
        Nat.div_eq_of_lt ha]
      omega
    rw [hdiv]
    omega
  · rw [TaggedPtr.ptr, hw, and_PTR_MASK]
    omega

/-- Any word below `2 ^ 64` decomposes as `tag * 2 ^ 57 + ptr` with `tag < 128`
and `ptr < 2 ^ 57`: the `(tag, address)` pair determines the word. -/
theorem word_decomp (p : TaggedPtr) (hw : p.word < 2 ^ 64) :
    p.word = p.tag * 2 ^ 57 + p.ptr ∧ p.tag < 128 ∧ p.ptr < 2 ^ 57 := by
  rw [TaggedPtr.tag, TaggedPtr.ptr, and_TAG_MASK_shift, and_PTR_MASK]
  refine ⟨?_, ?_, ?_⟩
  · have h1 : p.word / 2 ^ 57 < 128 := by
      apply Nat.div_lt_of_lt_mul
      calc p.word < 2 ^ 64 := hw
        _ = 2 ^ 57 * 128 := by norm_num
    rw [Nat.mod_eq_of_lt h1]
    have := Nat.div_add_mod p.word (2 ^ 57)
    omega
  · exact Nat.mod_lt _ (by norm_num)
  · exact Nat.mod_lt _ (by norm_num)

/-- High-bits-clear addresses carry no tag bits. -/
theorem and_TAG_MASK_eq_zero (a : Nat) (ha : a < 2 ^ 57) : a &&& TAG_MASK = 0 := by
  apply Nat.eq_of_testBit_eq
  intro i
  rw [Nat.testBit_land, TAG_MASK, TAG_SHIFT, Nat.testBit_shiftLeft,
    Nat.zero_testBit]
  by_cases hi : i < 57
  · simp [show ¬ (57 ≤ i) from by omega, ge_iff_le]
  · have hfa : a.testBit i = false := by
      apply Nat.testBit_lt_two_pow
      calc a < 2 ^ 57 := ha
        _ ≤ 2 ^ i := Nat.pow_le_pow_right (by norm_num) (by omega)
    simp [hfa]

/-! ## C2: encode/decode roundtrip -/

/-- C2: for every tag in `[0,128)` and every address whose top 7 bits are zero,
`TaggedPtr::new(addr, tag)` succeeds (both debug asserts pass) and reading the
pair back is the identity: `.tag() == tag` and `.ptr() == addr`. -/
theorem C2_new_tag_ptr_roundtrip (addr tag : Nat) (ht : tag < 128)
    (ha : addr < 2 ^ 57) :
    TaggedPtr.new addr tag = some (TaggedPtr.newRaw addr tag) ∧
    (TaggedPtr.newRaw addr tag).tag = tag ∧
    (TaggedPtr.newRaw addr tag).ptr = addr := by
  have h := newRaw_tag_ptr addr tag ha (by omega)
  refine ⟨?_, ?_, h.2⟩
  · rw [TaggedPtr.new, and_TAG_MASK_eq_zero addr ha]
    simp [MAX_VARIANTS, ht]
  · rw [h.1, Nat.mod_eq_of_lt ht]

/-- Witness for C2 at address 8, tag 5. -/
theorem C2_new_tag_ptr_roundtrip_witness :
    (5 : Nat) < 128 ∧ (8 : Nat) < 2 ^ 57 ∧
    (TaggedPtr.new 8 5 = some (TaggedPtr.newRaw 8 5) ∧
      (TaggedPtr.newRaw 8 5).tag = 5 ∧ (TaggedPtr.newRaw 8 5).ptr = 8) :=
  ⟨by norm_num, by norm_num,
    C2_new_tag_ptr_roundtrip 8 5 (by norm_num) (by norm_num)⟩

/-- The 7-bit tag read is below 128 for every word. -/
theorem tag_lt_128 (p : TaggedPtr) : p.tag < 128 := by
  rw [TaggedPtr.tag, and_TAG_MASK_shift]
  exact Nat.mod_lt _ (by norm_num)

/-- What one generated constructor does, spelled out: tag the fresh address
with the declaration index, store the payload there, touch nothing else. -/
theorem constructOwned_spec {α : Type} (h : Heap α) (i : Nat) (x : α)
    (hi : i < 128) (hn : h.next < 2 ^ 57) :
    (constructOwned h i x).1.tag = i ∧
    (constructOwned h i x).1.ptr = h.next ∧
    (constructOwned h i x).1.word = i * 2 ^ 57 + h.next ∧
    (constructOwned h i x).2.next = h.next + 1 ∧
    (constructOwned h i x).2.mem h.next = some x ∧
    ∀ a, a ≠ h.next → (constructOwned h i x).2.mem a = h.mem a := by
  have him : i % 256 % 128 = i := by omega
  have h1 := newRaw_tag_ptr h.next (i % 256) hn (by omega)
  have h2 := newRaw_word h.next (i % 256) hn (by omega)
  rw [him] at h1 h2
  refine ⟨h1.1, h1.2, h2, rfl, ?_, ?_⟩
  · show (if h.next = h.next then some x else h.mem h.next) = some x
    simp
  · intro a ha
    show (if a = h.next then some x else h.mem a) = h.mem a
    simp [ha]

/-! ## C10: `From` conversion versus named constructor -/

/-- C10: for every declared variant and every payload, the generated
`From::from` conversion and the generated named per-variant constructor are
the same operation: both box the payload at a fresh address and wrap that
address with the variant's declaration-order tag, returning identical wrapped
values and identical heaps. -/
theorem C10_from_eq_constructor {α : Type} :
    ∀ (h : Heap α) (i : Nat) (x : α), fromOwned h i x = constructOwned h i x :=
  fun _ _ _ => rfl

/-! ## C9: tags equal declaration order -/

/-- C9: the `i`-th declared variant's owned constructor, its `From`
conversion, and the `i`-th arena-builder method all wrap the freshly
allocated address with tag `i`, and tag introspection (`tag_type`) on the
resulting value reports the `i`-th variant. -/
theorem C9_tags_follow_declaration_order {α : Type} (h : Heap α)
    (b : Builder α) (i : Nat) (x : α) (hi : i < 128) (hn : h.next < 2 ^ 57)
    (hb : b.region.next < 2 ^ 57) :
    (constructOwned h i x).1.tag = i ∧
    tag_type (constructOwned h i x).1 = i ∧
    (fromOwned h i x).1.tag = i ∧
    (Builder.build b i x).1.repr.tag = i ∧
    tag_type (Builder.build b i x).1.repr = i := by
  have hc := constructOwned_spec h i x hi hn
  have harena : (Builder.build b i x).1.repr.tag = i := by
    have h1 := newRaw_tag_ptr b.region.next (i % 256) hb (by omega)
    have him : i % 256 % 128 = i := by omega
    rw [him] at h1
    exact h1.1
  exact ⟨hc.1, hc.1, hc.1, harena, harena⟩

/-- Witness for C9: variant index 1 built at a heap whose bump pointer is 8. -/
theorem C9_tags_follow_declaration_order_witness :
    (1 : Nat) < 128 ∧ (8 : Nat) < 2 ^ 57 ∧
    ((constructOwned ⟨8, fun _ => none⟩ 1 (42 : Nat)).1.tag = 1 ∧
      tag_type (constructOwned ⟨8, fun _ => none⟩ 1 (42 : Nat)).1 = 1 ∧
      (fromOwned ⟨8, fun _ => none⟩ 1 (42 : Nat)).1.tag = 1 ∧
      (Builder.build ⟨Strategy.bumpaloOwned, ⟨8, fun _ => none⟩, 0, 0, 0⟩ 1
        (42 : Nat)).1.repr.tag = 1 ∧
      tag_type (Builder.build ⟨Strategy.bumpaloOwned, ⟨8, fun _ => none⟩,
        0, 0, 0⟩ 1 (42 : Nat)).1.repr = 1) :=
  ⟨by norm_num, by norm_num,
    C9_tags_follow_declaration_order ⟨8, fun _ => none⟩
      ⟨Strategy.bumpaloOwned, ⟨8, fun _ => none⟩, 0, 0, 0⟩ 1 42 (by norm_num)
      (by norm_num) (by norm_num)⟩

/-! ## C3: the generated forwarding methods -/

/-- C3: the forwarding table contains exactly the capability methods not
marked `#[no_dispatch]`; and every generated forwarding method, applied to a
wrapped value whose tag is a valid declared variant tag and whose address
holds payload `x`, reads the tag, selects the matching declared variant's
implementation, passes the payload read through the untagged address together
with all original arguments, and returns that implementation's result
unchanged. -/
theorem C3_dispatch_forwarding {α σ ρ : Type} :
    (∀ (ms : List (TraitMethod α σ ρ)) (m : TraitMethod α σ ρ),
        m ∈ dispatchForwarders ms ↔ m ∈ ms ∧ m.noDispatch = false) ∧
    (∀ (impls : List (α → σ → ρ)) (h : Heap α) (v : TaggedPtr) (args : σ)
        (x : α) (hv : v.tag < impls.length), h.mem v.ptr = some x →
        dispatchCall impls h v args = some (impls.get ⟨v.tag, hv⟩ x args)) := by
  constructor
  · intro ms m
    simp [dispatchForwarders, List.mem_filter]
  · intro impls h v args x hv hx
    rw [dispatchCall, tag_type, hx, List.getElem?_eq_getElem hv]
    rfl

/-- Witness for C3: one non-excluded method; a two-variant set, the value
holding payload 5 under tag 0 at address 8; dispatch of `fun x a => x + a`
with argument 2 returns 7. -/
theorem C3_dispatch_forwarding_witness :
    (⟨false, []⟩ ∈ dispatchForwarders [(⟨false, []⟩ : TraitMethod Nat Nat Nat)]
      ↔ ((⟨false, []⟩ : TraitMethod Nat Nat Nat) ∈
          [(⟨false, []⟩ : TraitMethod Nat Nat Nat)] ∧ false = false)) ∧
    dispatchCall [fun (x : Nat) (a : Nat) => x + a, fun (x : Nat) (a : Nat) => x * a]
      ⟨9, fun a => if a = 8 then some 5 else none⟩
      (TaggedPtr.newRaw 8 0) 2 = some 7 := by
  constructor
  · exact (C3_dispatch_forwarding (α := Nat) (σ := Nat) (ρ := Nat)).1
      [⟨false, []⟩] ⟨false, []⟩
  · have h := (C3_dispatch_forwarding (α := Nat) (σ := Nat) (ρ := Nat)).2
      [fun x a => x + a, fun x a => x * a]
      ⟨9, fun a => if a = 8 then some 5 else none⟩
      (TaggedPtr.newRaw 8 0) 2 5 (by decide) (by decide)
    exact h

/-! ## C1: pointer-identity equality and (tag, address)-ordering -/

/-- C1: the derived equality on the owned wrapper is exactly equality of
`(tag, address)`; every value equals itself; two independently constructed
values — even from identical concrete data — are unequal, because each
construction allocates a fresh address; and the derived order is primarily by
tag and secondarily by address, and is a total order (total, antisymmetric,
transitive) without inspecting variant contents. -/
theorem C1_pointer_identity_semantics {α : Type} :
    (∀ v w : TaggedPtr, v.word < 2 ^ 64 → w.word < 2 ^ 64 →
      (derivedEqOwned v w ↔ v.tag = w.tag ∧ v.ptr = w.ptr)) ∧
    (∀ v : TaggedPtr, derivedEqOwned v v) ∧
    (∀ (h : Heap α) (i j : Nat) (x y : α), i < 128 → j < 128 →
      h.next + 1 < 2 ^ 57 →
      ¬ derivedEqOwned (constructOwned h i x).1
        (constructOwned (constructOwned h i x).2 j y).1) ∧
    (∀ v w : TaggedPtr, v.word < 2 ^ 64 → w.word < 2 ^ 64 →
      (derivedLtOwned v w ↔
        v.tag < w.tag ∨ (v.tag = w.tag ∧ v.ptr < w.ptr))) ∧
    (∀ v w : TaggedPtr, derivedLeOwned v w ∨ derivedLeOwned w v) ∧
    (∀ v w : TaggedPtr,
      derivedLeOwned v w → derivedLeOwned w v → derivedEqOwned v w) ∧
    (∀ u v w : TaggedPtr,
      derivedLeOwned u v → derivedLeOwned v w → derivedLeOwned u w) := by
  refine ⟨?_, ?_, ?_, ?_, ?_, ?_, ?_⟩
  · intro v w hv hw
    obtain ⟨hv1, hv2, hv3⟩ := word_decomp v hv
    obtain ⟨hw1, hw2, hw3⟩ := word_decomp w hw
    rw [derivedEqOwned]
    constructor
    · intro he
      constructor <;> omega
    · intro he
      omega
  · intro v
    rfl
  · intro h i j x y hi hj hn
    have h1 := constructOwned_spec h i x hi (by omega)
    have h2 := constructOwned_spec (constructOwned h i x).2 j y hj
      (by rw [h1.2.2.2.1]; omega)
    rw [derivedEqOwned, h1.2.2.1, h2.2.2.1, h1.2.2.2.1]
    omega
  · intro v w hv hw
    obtain ⟨hv1, hv2, hv3⟩ := word_decomp v hv
    obtain ⟨hw1, hw2, hw3⟩ := word_decomp w hw
    rw [derivedLtOwned]
    constructor
    · intro hlt
      by_cases htag : v.tag = w.tag
      · right
        exact ⟨htag, by omega⟩
      · left
        omega
    · intro hca
      rcases hca with hlt | ⟨heq, hptr⟩ <;> omega
  · intro v w
    rw [derivedLeOwned, derivedLeOwned]
    omega
  · intro v w h1 h2
    rw [derivedLeOwned] at h1 h2
    rw [derivedEqOwned]
    omega
  · intro u v w h1 h2
    rw [derivedLeOwned] at h1 h2 ⊢
    omega

/-- Witness for C1: the freshness conjunct at a concrete heap — two values
built from identical data (payload 42, variant 0, bump pointer 8) are
unequal. -/
theorem C1_pointer_identity_semantics_witness :
    (0 : Nat) < 128 ∧ (8 : Nat) + 1 < 2 ^ 57 ∧
    ¬ derivedEqOwned
      (constructOwned (⟨8, fun _ => none⟩ : Heap Nat) 0 42).1
      (constructOwned (constructOwned (⟨8, fun _ => none⟩ : Heap Nat) 0 42).2
        0 42).1 :=
  ⟨by norm_num, by norm_num,
    (C1_pointer_identity_semantics (α := Nat)).2.2.1 ⟨8, fun _ => none⟩ 0 0
      42 42 (by norm_num) (by norm_num) (by norm_num)⟩

/-! ## C5: cloning -/

/-- C5: cloning an owned value with a valid tag branches on the tag, invokes
that variant's concrete copy operation on the pointee, and re-wraps the copy
through the same constructor path, so the clone carries the same tag,
addresses a freshly allocated, different address holding the copied payload,
and (when the copy operation reproduces the payload) every dispatched method
gives the same result on the clone as on the source at clone time. -/
theorem C5_clone_same_tag_fresh_address {α σ ρ : Type}
    (clones : List (α → α)) (h : Heap α) (v : TaggedPtr) (cl : α → α) (x : α)
    (hcl : clones[v.tag]? = some cl) (hx : h.mem v.ptr = some x)
    (hlive : v.ptr < h.next) (hn : h.next < 2 ^ 57) (hcopy : cl x = x) :
    ∃ v' h',
      cloneOwned clones h v = some (v', h') ∧
      v'.tag = v.tag ∧
      v'.ptr ≠ v.ptr ∧
      h'.mem v'.ptr = some (cl x) ∧
      ∀ (impls : List (α → σ → ρ)) (args : σ),
        dispatchCall impls h' v' args = dispatchCall impls h' v args := by
  have hc := constructOwned_spec h v.tag (cl x) (tag_lt_128 v) hn
  refine ⟨(constructOwned h v.tag (cl x)).1, (constructOwned h v.tag (cl x)).2,
    ?_, hc.1, ?_, ?_, ?_⟩
  · rw [cloneOwned, hcl, hx]
  · rw [hc.2.1]
    omega
  · rw [hc.2.1, hc.2.2.2.2.1]
  · intro impls args
    have hmem : (constructOwned h v.tag (cl x)).2.mem v.ptr = some x := by
      rw [hc.2.2.2.2.2 v.ptr (by omega), hx]
    rw [dispatchCall, dispatchCall, tag_type, tag_type, hc.1, hc.2.1,
      hc.2.2.2.2.1, hmem, hcopy]

/-- Witness for C5: one-variant set, identity copy operation, payload 42 at
address 5 in a heap whose bump pointer is 6. -/
theorem C5_clone_same_tag_fresh_address_witness :
    ∃ v' h',
      cloneOwned [fun x => x] (⟨6, fun a => if a = 5 then some 42 else none⟩ :
        Heap Nat) (TaggedPtr.newRaw 5 0) = some (v', h') ∧
      v'.tag = (TaggedPtr.newRaw 5 0).tag ∧
      v'.ptr ≠ (TaggedPtr.newRaw 5 0).ptr ∧
      h'.mem v'.ptr = some ((fun x => x) 42) ∧
      ∀ (impls : List (Nat → Nat → Nat)) (args : Nat),
        dispatchCall impls h' v' args =
          dispatchCall impls h' (TaggedPtr.newRaw 5 0) args :=
  C5_clone_same_tag_fresh_address [fun x => x]
    ⟨6, fun a => if a = 5 then some 42 else none⟩ (TaggedPtr.newRaw 5 0)
    (fun x => x) 42 rfl (by decide) (by decide) (by norm_num) rfl

/-! ## C6: destruction -/

/-- C6: dropping an owned value with a valid declared tag never hits the
`unreachable!` arm; when `is_null()` holds it is a no-op (heap untouched,
nothing deallocated); otherwise it branches on the tag, runs the concrete
variant's destructor on the pointee at the untagged address, and deallocates
exactly that one address exactly once — no execution path records the same
address twice. -/
theorem C6_drop_deallocates_once {α : Type} (n : Nat) (h : Heap α)
    (v : TaggedPtr) (htag : v.tag < n) :
    ∃ p : Heap α × List Nat,
      dropOwned n h v = some p ∧
      (v.is_null = true → p = (h, [])) ∧
      (v.is_null = false →
        p.1 = h.free v.untagged_ptr ∧ p.2 = [v.untagged_ptr] ∧
        p.1.mem v.untagged_ptr = none) ∧
      ∀ a, p.2.count a ≤ 1 := by
  by_cases hnull : v.is_null
  · refine ⟨(h, []), ?_, ?_, ?_, ?_⟩
    · rw [dropOwned, if_pos hnull]
    · intro _
      rfl
    · intro hcon
      rw [hnull] at hcon
      cases hcon
    · intro a
      simp
  · refine ⟨(h.free v.untagged_ptr, [v.untagged_ptr]), ?_, ?_, ?_, ?_⟩
    · rw [dropOwned, if_neg hnull, if_pos htag]
    · intro hcon
      exact absurd hcon hnull
    · intro _
      refine ⟨rfl, rfl, ?_⟩
      show (if v.untagged_ptr = v.untagged_ptr then none else _) = none
      simp
    · intro a
      by_cases ha : a = v.untagged_ptr <;>
        simp [ha, List.count_cons, List.count_nil]

set_option maxRecDepth 8000 in
/-- Witness for C6: a two-variant set, value with tag 1 at address 5. -/
theorem C6_drop_deallocates_once_witness :
    ∃ p : Heap Nat × List Nat,
      dropOwned 2 (⟨6, fun a => if a = 5 then some 42 else none⟩ : Heap Nat)
        (TaggedPtr.newRaw 5 1) = some p ∧
      ((TaggedPtr.newRaw 5 1).is_null = true →
        p = (⟨6, fun a => if a = 5 then some 42 else none⟩, [])) ∧
      ((TaggedPtr.newRaw 5 1).is_null = false →
        p.1 = Heap.free ⟨6, fun a => if a = 5 then some 42 else none⟩
          (TaggedPtr.newRaw 5 1).untagged_ptr ∧
        p.2 = [(TaggedPtr.newRaw 5 1).untagged_ptr] ∧
        p.1.mem (TaggedPtr.newRaw 5 1).untagged_ptr = none) ∧
      ∀ a, p.2.count a ≤ 1 :=
  C6_drop_deallocates_once 2 ⟨6, fun a => if a = 5 then some 42 else none⟩
    (TaggedPtr.newRaw 5 1) (by decide)

/-! ## C4: more than 128 variants is not rejected -/

set_option maxRecDepth 8000 in
/-- C4 evaluation: registering 129 variants is not rejected — the macro
generates all 129 constructors, the 129th carrying the tag literal
`128 as u8 = 128`; a debug build then panics at the first construction of
that variant (`TaggedPtr::new` fails its tag assert), i.e. at construction
time rather than registration time, while a release build constructs a
wrapped, non-null value whose 7-bit tag field wraps around to 0 — a
construction path that does produce a value from a set with more than 128
declared variants. -/
theorem C4_overflow_not_rejected_eval :
    (constructorTags 129).length = 129 ∧
    (constructorTags 129)[128]? = some 128 ∧
    TaggedPtr.new 8 128 = none ∧
    (TaggedPtr.newRaw 8 128).tag = 0 ∧
    (TaggedPtr.newRaw 8 128).is_null = false ∧
    (TaggedPtr.newRaw 8 128).ptr = 8 := by
  refine ⟨?_, ?_, ?_, ?_, ?_, ?_⟩ <;> decide

/-! ## C7: `clear` versus `reset` -/

/-- C7 evaluation: the generated `clear()` body is exactly `self.reset()`, so
`clear` is equivalent to `reset` for every strategy — including the owned
bumpalo strategy, whose backing chunk (and hence `chunk_capacity`) survives a
`reset` and is therefore not released to the surrounding allocator by
`clear` either.  What does hold of `clear`: all allocations are discarded and
every previously produced arena value is invalidated. -/
theorem C7_clear_is_reset_for_every_strategy {α : Type} :
    (∀ b : Builder α, b.clear = b.reset) ∧
    (∀ b : Builder α, b.strat = Strategy.bumpaloOwned →
      ∃ b', b.clear = Except.ok b' ∧
        b'.chunkCapacity = b.chunkCapacity ∧
        b'.allocatedBytes = 0 ∧
        ∀ v : ArenaValue, v.epoch = b.epoch → v.invalidatedBy b') := by
  constructor
  · intro b
    rfl
  · intro b hb
    rw [Builder.clear, Builder.reset, hb]
    refine ⟨_, rfl, rfl, rfl, ?_⟩
    intro v hv
    rw [ArenaValue.invalidatedBy, hv]
    show b.epoch ≠ b.epoch + 1
    omega

/-- Witness for C7: an owned-bumpalo builder with 7 allocated bytes and chunk
capacity 100; `clear` keeps the capacity at 100. -/
theorem C7_clear_is_reset_for_every_strategy_witness :
    Builder.clear (⟨Strategy.bumpaloOwned, ⟨8, fun _ => none⟩, 7, 100, 0⟩ :
        Builder Nat) =
      Builder.reset (⟨Strategy.bumpaloOwned, ⟨8, fun _ => none⟩, 7, 100, 0⟩ :
        Builder Nat) ∧
    ∃ b', Builder.clear (⟨Strategy.bumpaloOwned, ⟨8, fun _ => none⟩, 7, 100,
        0⟩ : Builder Nat) = Except.ok b' ∧
      b'.chunkCapacity = 100 ∧ b'.allocatedBytes = 0 ∧
      ∀ v : ArenaValue, v.epoch = 0 → v.invalidatedBy b' :=
  ⟨(C7_clear_is_reset_for_every_strategy (α := Nat)).1
      ⟨Strategy.bumpaloOwned, ⟨8, fun _ => none⟩, 7, 100, 0⟩,
    (C7_clear_is_reset_for_every_strategy (α := Nat)).2
      ⟨Strategy.bumpaloOwned, ⟨8, fun _ => none⟩, 7, 100, 0⟩ rfl⟩

/-! ## C8: reset/clear on a borrowed region -/

/-- C8: on a builder bound to a borrowed (externally owned) region — the
`Bumpalo { owned: false }` arm, the only borrowed binding the generator can
produce — both `reset()` and `clear()` fail loudly with the descriptive
panic "Cannot reset builder using external arena", returning no successor
state at all: nothing is silently skipped and the external region is not
mutated. -/
theorem C8_borrowed_region_reset_clear_fail {α : Type} (b : Builder α)
    (hb : b.strat = Strategy.bumpaloExternal) :
    b.reset = Except.error ResetError.cannotResetExternalArena ∧
    b.clear = Except.error ResetError.cannotResetExternalArena := by
  have hr : b.reset = Except.error ResetError.cannotResetExternalArena := by
    rw [Builder.reset, hb]
  exact ⟨hr, hr⟩

/-- Witness for C8: a concrete builder borrowing an external bumpalo arena. -/
theorem C8_borrowed_region_reset_clear_fail_witness :
    Builder.reset (⟨Strategy.bumpaloExternal, ⟨8, fun _ => none⟩, 7, 100, 0⟩ :
        Builder Nat) =
      Except.error ResetError.cannotResetExternalArena ∧
    Builder.clear (⟨Strategy.bumpaloExternal, ⟨8, fun _ => none⟩, 7, 100, 0⟩ :
        Builder Nat) =
      Except.error ResetError.cannotResetExternalArena :=
  C8_borrowed_region_reset_clear_fail
    ⟨Strategy.bumpaloExternal, ⟨8, fun _ => none⟩, 7, 100, 0⟩ rfl

end TaggedDispatch
